import Mathlib

/-!
LangChef authentication core — shallow embedding

Shallow embedding of `backend/services/auth_service.py` (the module actually
imported by the route layer; `auth_service_fixed.py` is imported nowhere and is
syntactically invalid from line 295 on).  Python datetimes are modelled as a
wall-clock value plus an optional timezone offset, Python `try/except` as
`Except`-valued computations, the SQLAlchemy user table as a list of user
records, and the AWS SSO / STS network calls as oracle values supplied by the
environment.
-/

namespace LangChef

/-- Python `datetime`: wall-clock seconds together with an optional timezone
offset in seconds (`none` = naive). -/
structure PyDateTime where
  t : Int
  tz : Option Int
deriving DecidableEq, Repr

/-- The instant a datetime denotes (wall clock minus offset). -/
def pyInstant (d : PyDateTime) : Int := d.t - (d.tz.getD 0)

/-- Python `a > b` on datetimes: comparing a naive with an aware datetime
raises `TypeError` (modelled as `Except.error`). -/
def pyGT (a b : PyDateTime) : Except Unit Bool :=
  if a.tz.isSome != b.tz.isSome then Except.error ()
  else Except.ok (decide (pyInstant b < pyInstant a))

/-- Model of `d.replace(tzinfo=None)`: drops the offset, keeps the wall clock. -/
def dropTz (d : PyDateTime) : PyDateTime := { d with tz := none }

/-- Lines 107-111 / 145-149 of `auth_service.py`: if the expiry is
timezone-aware, strip the tzinfo before comparing. -/
def normalizeExpiry (d : PyDateTime) : PyDateTime :=
  if d.tz.isSome then dropTz d else d

/-- Python truthiness of an optional string field (`None` and `""` are falsy). -/
def truthyS : Option String → Bool
  | none => false
  | some s => s != ""

/-- Value of a `fastapi.HTTPException`: status code, detail, extra headers. -/
structure HTTPExc where
  status : Nat
  detail : String
  headers : List (String × String)
deriving DecidableEq, Repr

/-- Row of the `users` table (`backend/models/user.py`). -/
structure UserR where
  id : String
  username : String
  email : String
  full_name : Option String
  aws_identity_id : Option String
  aws_access_key_id : Option String
  aws_secret_access_key : Option String
  aws_session_token : Option String
  aws_token_expiry : Option PyDateTime
  is_active : Bool
deriving DecidableEq, Repr

/-- JSON-ish values stored in a JWT claim set. -/
inductive JwtVal where
  | s (v : String)
  | time (t : Int)
  | nullv
deriving DecidableEq, Repr

/-- A signed token: its claim payload plus the key it was signed with
(signature validity = key equality with the verifier's secret). -/
structure Token where
  payload : List (String × JwtVal)
  key : String
deriving DecidableEq, Repr

/-- The relevant fields of `backend/config.py` `Settings`. -/
structure Settings where
  secretKey : String
  accessTokenExpireMinutes : Int
  awsAccessKeyId : Option String
  awsSecretAccessKey : Option String
  awsSsoAccountId : String
  awsSsoRoleName : String
deriving DecidableEq, Repr

/-- Python `dict.update` on an association list with unique keys: replace the
entry in place when the key is present, append otherwise. -/
def dictSet (k : String) (v : JwtVal) : List (String × JwtVal) → List (String × JwtVal)
  | [] => [(k, v)]
  | p :: rest => if p.1 == k then (k, v) :: rest else p :: dictSet k v rest

/-- Embedding of `create_token` (`auth_service.py` lines 55-67).  `expiresDelta` is the
optional `timedelta` in seconds; Python `if expires_delta:` is truthiness, so a
zero delta falls back to the configured default lifetime. -/
def create_token (secret : String) (defaultMinutes : Int) (now : Int)
    (data : List (String × JwtVal)) (expiresDelta : Option Int) : Token :=
  let expire : Int :=
    match expiresDelta with
    | some d => if d != 0 then now + d else now + defaultMinutes * 60
    | none => now + defaultMinutes * 60
  { payload := dictSet "exp" (JwtVal.time expire) data, key := secret }

/-- The `jose` exception hierarchy: both constructors are subclasses of
`JWTError`, which is what `get_current_user` catches. -/
inductive JoseError where
  | signatureError
  | expiredSignatureError
deriving DecidableEq, Repr

/-- Model of `jwt.decode(token, secret, algorithms=["HS256"])`: signature check, then
expiry-claim check (python-jose raises `ExpiredSignatureError` when the `exp`
claim is before now). -/
def jwtDecode (secret : String) (now : Int) (t : Token) :
    Except JoseError (List (String × JwtVal)) :=
  if t.key != secret then Except.error JoseError.signatureError
  else
    match t.payload.lookup "exp" with
    | some (JwtVal.time e) =>
        if e < now then Except.error JoseError.expiredSignatureError
        else Except.ok t.payload
    | _ => Except.ok t.payload

/-- The `credentials_exception` of `auth_service.py` lines 74-78. -/
def credentialsException : HTTPExc :=
  { status := 401, detail := "Could not validate credentials",
    headers := [("WWW-Authenticate", "Bearer")] }

/-- The 403 raised for an inactive user (lines 96-100). -/
def inactiveException : HTTPExc :=
  { status := 403, detail := "Inactive user", headers := [] }

/-- The 401 raised when the user's delegated AWS credentials have expired
(lines 113-119); note the distinct detail and header. -/
def awsExpiredException : HTTPExc :=
  { status := 401, detail := "AWS session expired, please log in again",
    headers := [("X-AWS-Session-Expired", "true")] }

/-- The 401 raised when the expiry comparison itself raises (lines 120-127). -/
def awsCompareErrorException : HTTPExc :=
  { status := 401, detail := "Error validating AWS token expiry, please log in again",
    headers := [("X-AWS-Session-Expired", "true")] }

/-- Embedding of `get_current_user` (`auth_service.py` lines 69-129): decode the bearer
token (any `JWTError`, including expiry, becomes the generic credentials
failure), load the user by the `sub` claim, reject inactive users, then reject
users whose delegated AWS credential expiry is in the past. -/
def get_current_user (secret : String) (now : Int) (tok : Token)
    (db : List UserR) : Except HTTPExc UserR :=
  match jwtDecode secret now tok with
  | Except.error _ => Except.error credentialsException
  | Except.ok payload =>
    match payload.lookup "sub" with
    | none => Except.error credentialsException
    | some subv =>
      match db.find? (fun u => JwtVal.s u.username == subv) with
      | none => Except.error credentialsException
      | some user =>
        if !user.is_active then Except.error inactiveException
        else
          match user.aws_token_expiry with
          | none => Except.ok user
          | some ex =>
            match pyGT (PyDateTime.mk now none) (normalizeExpiry ex) with
            | Except.ok true => Except.error awsExpiredException
            | Except.ok false => Except.ok user
            | Except.error _ => Except.error awsCompareErrorException

/-- Embedding of `validate_aws_credentials` (`auth_service.py` lines 132-176), with each
`try/except` made explicit.  `live` is the outcome of the
`sts.get_caller_identity()` live check performed with the user's stored
triple.  The result pairs the returned boolean with a flag recording whether
the live network call was reached; the outer `Except` records a propagated
exception, of which there are none (every risky step is inside a broad
`except` that returns `False`). -/
def validate_aws_credentials (now : Int) (live : Except String Unit)
    (user : UserR) : Except String (Bool × Bool) :=
  if !truthyS user.aws_access_key_id || !truthyS user.aws_secret_access_key then
    Except.ok (false, false)
  else
    match user.aws_token_expiry with
    | some ex =>
      match pyGT (PyDateTime.mk now none) (normalizeExpiry ex) with
      | Except.error _ => Except.ok (false, false)
      | Except.ok true => Except.ok (false, false)
      | Except.ok false =>
        match live with
        | Except.ok _ => Except.ok (true, true)
        | Except.error _ => Except.ok (false, true)
    | none =>
      match live with
      | Except.ok _ => Except.ok (true, true)
      | Except.error _ => Except.ok (false, true)

/-- Python `str.title()` on a character list: uppercase the first letter of
every alphabetic run, lowercase the rest. -/
def pyTitleAux : Bool → List Char → List Char
  | _, [] => []
  | prevAlpha, c :: rest =>
    let c2 := if c.isAlpha then (if prevAlpha then c.toLower else c.toUpper) else c
    c2 :: pyTitleAux c.isAlpha rest

/-- Python `str.title()`. -/
def pyTitle (s : String) : String := String.mk (pyTitleAux false s.toList)

/-- Substring test on character lists (Python `pat in s`). -/
def listIsInfixOf (p : List Char) : List Char → Bool
  | [] => p.isEmpty
  | c :: rest => p.isPrefixOf (c :: rest) || listIsInfixOf p rest

/-- Python `pat in msg` on strings. -/
def containsSub (msg pat : String) : Bool := listIsInfixOf pat.toList msg.toList

/-- Lines 473-507 of `auth_service.py`: classify a provider error message by
substring matching on AWS exception class names; `none` means the error is
re-raised and caught by the outer handler. -/
def classifyTokenError (msg : String) : Option HTTPExc :=
  if containsSub msg "ExpiredTokenException" then
    some { status := 400, detail := "expired_token", headers := [] }
  else if containsSub msg "SlowDownException" then
    some { status := 429, detail := "slow_down", headers := [] }
  else if containsSub msg "AccessDeniedException" then
    some { status := 400, detail := "access_denied", headers := [] }
  else if containsSub msg "InvalidGrantException" then
    some { status := 400, detail := "authorization_pending", headers := [] }
  else none

/-- A provider error either maps to one of the four classified responses or
falls through to the outer 500 wrapper (lines 511-516). -/
def mapTokenError (msg : String) : HTTPExc :=
  match classifyTokenError msg with
  | some e => e
  | none =>
    { status := 500,
      detail := "Failed to create token from device code: " ++ msg, headers := [] }

/-- The message of the `NameError` raised when the role-credential variables
were never bound (settings guard at line 380 false, so neither the `try` body
nor the `except` ran); it contains none of the four AWS exception names. -/
def nameErrorMsg : String := "NameError: name aws_access_key_id is not defined"

/-- The `roleCredentials` dictionary returned by `sso.get_role_credentials`
(every field read with `.get`, hence optional; expiration in milliseconds). -/
structure RoleCreds where
  accessKeyId : Option String
  secretAccessKey : Option String
  sessionToken : Option String
  expiration : Option Int
deriving DecidableEq, Repr

/-- An entry of the `accountList` returned by `sso.list_accounts`. -/
structure Account where
  accountName : Option String
  emailAddress : Option String
deriving DecidableEq, Repr

/-- Environment of one `create_token_from_device_code` call: the provider
responses for this poll, the current unix time used to synthesize fallback
identity fields, and the uuid drawn for a newly created user. -/
structure DeviceEnv where
  tokenResp : Except String String
  accountsResp : Except String (List Account)
  roleResp : Except String RoleCreds
  ts : Int
  freshId : String
deriving Repr

/-- Lines 348-375: synthesize `(username, email, full_name)` from the
timestamp, then best-effort override them from the first account's email
address (each step guarded by Python truthiness). -/
def deriveIdentity (env : DeviceEnv) : String × String × String :=
  let username0 := "user_" ++ toString env.ts
  let email0 := username0 ++ "@example.com"
  let fullName0 := "User " ++ toString env.ts
  match env.accountsResp with
  | Except.error _ => (username0, email0, fullName0)
  | Except.ok accts =>
    match accts with
    | [] => (username0, email0, fullName0)
    | first :: _ =>
      match first.emailAddress with
      | none => (username0, email0, fullName0)
      | some em =>
        if em != "" then
          match em.splitOn "@" with
          | [] => (username0, em, fullName0)
          | p :: _ =>
            if p != "" then (p, em, pyTitle (p.replace "." " "))
            else (username0, em, fullName0)
        else (username0, email0, fullName0)

/-- Model of `datetime.fromtimestamp(ms / 1000)`: a naive datetime (sub-second
precision dropped in the model). -/
def fromMs (ms : Int) : PyDateTime := PyDateTime.mk (ms / 1000) none

/-- Lines 377-407: the role-credential block.  Returns the four credential
values bound by the block; `none` models the case where the settings guard is
false so the variables are never bound and the later read raises `NameError`.
A provider failure binds all four to `None`.  A falsy (zero) expiration is
left un-converted; every later read of the expiry field is
truthiness-guarded, so it behaves like an absent value. -/
def deriveCreds (st : Settings) (env : DeviceEnv) :
    Option (Option String × Option String × Option String × Option PyDateTime) :=
  if st.awsSsoAccountId != "" && st.awsSsoRoleName != "" then
    match env.roleResp with
    | Except.ok rc =>
        let expiry : Option PyDateTime :=
          match rc.expiration with
          | some ms => if ms != 0 then some (fromMs ms) else none
          | none => none
        some (rc.accessKeyId, rc.secretAccessKey, rc.sessionToken, expiry)
    | Except.error _ => some (none, none, none, none)
  else none

/-- Embedding of `db.execute(select(User).filter(User.username == w))` followed by
`.scalars().first()`. -/
def findByUsername (db : List UserR) (w : String) : Option UserR :=
  db.find? (fun u => u.username == w)

/-- Mutating the first row matching `w` and committing. -/
def updateFirst (db : List UserR) (w : String) (f : UserR → UserR) : List UserR :=
  match db with
  | [] => []
  | u :: rest => if u.username == w then f u :: rest else u :: updateFirst rest w f

/-- The field update applied to an existing user on lines 442-446. -/
def applyCreds (c : Option String × Option String × Option String × Option PyDateTime)
    (x : UserR) : UserR :=
  { x with aws_access_key_id := c.1, aws_secret_access_key := c.2.1,
           aws_session_token := c.2.2.1, aws_token_expiry := c.2.2.2,
           is_active := true }

/-- Lines 419-448: look the user up by the derived username; create a fresh
row (uuid id, `aws_identity_id` set to the always-empty `userId`) or update
the credential fields of the existing row.  Returns the committed user and
the new table state. -/
def upsertDeviceUser (db : List UserR) (freshId username email fullName : String)
    (c : Option String × Option String × Option String × Option PyDateTime) :
    UserR × List UserR :=
  match findByUsername db username with
  | none =>
      let u : UserR :=
        { id := freshId, username := username, email := email,
          full_name := some fullName, aws_identity_id := some "",
          aws_access_key_id := c.1, aws_secret_access_key := c.2.1,
          aws_session_token := c.2.2.1, aws_token_expiry := c.2.2.2,
          is_active := true }
      (u, db ++ [u])
  | some u0 =>
      (applyCreds c u0, updateFirst db username (applyCreds c))

/-- Public user view returned to the caller (lines 462-468). -/
structure PublicUser where
  username : String
  email : String
  full_name : Option String
  id : String
  is_active : Bool
deriving DecidableEq, Repr

/-- The success payload of a login / poll (lines 459-469). -/
structure SessionOut where
  access_token : Token
  token_type : String
  user : PublicUser
deriving DecidableEq, Repr

/-- Lines 409-469: the success path after the provider exchanged the device
code — upsert the user, sign a JWT with `sub` and `email` claims, and return
the session with the public user view. -/
def pollSuccess (st : Settings) (env : DeviceEnv) (now : Int) (db : List UserR)
    (c : Option String × Option String × Option String × Option PyDateTime) :
    SessionOut × List UserR :=
  let idy := deriveIdentity env
  let ud := upsertDeviceUser db env.freshId idy.1 idy.2.1 idy.2.2 c
  ( { access_token := create_token st.secretKey st.accessTokenExpireMinutes now
        [("sub", JwtVal.s ud.1.username), ("email", JwtVal.s ud.1.email)] none,
      token_type := "bearer",
      user := { username := ud.1.username, email := ud.1.email,
                full_name := ud.1.full_name, id := ud.1.id,
                is_active := ud.1.is_active } },
    ud.2 )

/-- Embedding of `AWSSSOService.create_token_from_device_code` (lines 318-516).  The result
pairs the HTTP outcome with the table state after the call; every error path
leaves the table untouched. -/
def create_token_from_device_code (st : Settings) (env : DeviceEnv) (now : Int)
    (db : List UserR) : Except HTTPExc SessionOut × List UserR :=
  match env.tokenResp with
  | Except.error msg => (Except.error (mapTokenError msg), db)
  | Except.ok _ =>
    match deriveCreds st env with
    | none => (Except.error (mapTokenError nameErrorMsg), db)
    | some c =>
      let r := pollSuccess st env now db c
      (Except.ok r.1, r.2)

/-- Result of `sts.get_caller_identity()`. -/
structure AwsIdentity where
  account : String
  userId : String
  arn : String
deriving DecidableEq, Repr

/-- A Python exception value: either an `HTTPException` or any other error. -/
inductive PyErr where
  | http (e : HTTPExc)
  | other (msg : String)
deriving DecidableEq, Repr

/-- Model of `str(e)` (starlette `HTTPException.__str__` prints status and detail). -/
def pyStr : PyErr → String
  | PyErr.http e => toString e.status ++ ": " ++ e.detail
  | PyErr.other m => m

/-- Embedding of `AWSSSOService.get_aws_identity` (lines 181-206).  The function raises a
400 when no ambient credentials are configured, but that raise sits inside a
`try` whose broad `except Exception` catches `HTTPException` too and re-raises
everything as a 500. -/
def get_aws_identity (st : Settings) (sts : Except String AwsIdentity) :
    Except HTTPExc (String × String × String) :=
  let body : Except PyErr (String × String × String) :=
    if !truthyS st.awsAccessKeyId || !truthyS st.awsSecretAccessKey then
      Except.error (PyErr.http
        { status := 400, detail := "AWS credentials not provided", headers := [] })
    else
      match sts with
      | Except.error e => Except.error (PyErr.other e)
      | Except.ok i => Except.ok (i.account, i.userId, i.arn)
  match body with
  | Except.ok v => Except.ok v
  | Except.error e =>
    Except.error
      { status := 500, detail := "Failed to get AWS identity: " ++ pyStr e,
        headers := [] }

/-- Username derivation from the ARN (lines 216-217): last path segment if
the ARN contains a slash, the whole string otherwise. -/
def usernameFromArn (arn : String) : String :=
  match arn.splitOn "/" with
  | [] => ""
  | p :: rest =>
    if rest.isEmpty then p else (p :: rest).getLast (List.cons_ne_nil p rest)

/-- Embedding of `AWSSSOService.login_with_aws_credentials` (lines 208-266).  Its own
`except Exception` catches the `HTTPException` from `get_aws_identity` and
wraps it in another 500; only the current state of the table is read before
any failure, so failures leave the table untouched. -/
def login_with_aws_credentials (st : Settings) (sts : Except String AwsIdentity)
    (now : Int) (freshId : String) (db : List UserR) :
    Except HTTPExc SessionOut × List UserR :=
  match get_aws_identity st sts with
  | Except.error e =>
    (Except.error
      { status := 500,
        detail := "Failed to login with AWS credentials: " ++ pyStr (PyErr.http e),
        headers := [] }, db)
  | Except.ok idv =>
    let username := usernameFromArn idv.2.2
    let found := db.find? (fun u => u.aws_identity_id == some idv.2.1)
    let ud : UserR × List UserR :=
      match found with
      | none =>
          let u : UserR :=
            { id := freshId, username := username,
              email := username ++ "@example.com", full_name := some username,
              aws_identity_id := some idv.2.1, aws_access_key_id := none,
              aws_secret_access_key := none, aws_session_token := none,
              aws_token_expiry := none, is_active := true }
          (u, db ++ [u])
      | some u0 =>
          ({ u0 with is_active := true },
           db.map (fun x => if x.aws_identity_id == some idv.2.1 then
             { x with is_active := true } else x))
    let idClaim : JwtVal :=
      match ud.1.aws_identity_id with
      | some v => JwtVal.s v
      | none => JwtVal.nullv
    ( Except.ok
        { access_token := create_token st.secretKey st.accessTokenExpireMinutes now
            [("sub", JwtVal.s ud.1.username), ("email", JwtVal.s ud.1.email),
             ("aws_identity_id", idClaim)] none,
          token_type := "bearer",
          user := { username := ud.1.username, email := ud.1.email,
                    full_name := ud.1.full_name, id := ud.1.id,
                    is_active := ud.1.is_active } },
      ud.2 )

/-- String values a JWT claim value contributes to the serialized session. -/
def jwtValStrings : JwtVal → List String
  | JwtVal.s v => [v]
  | JwtVal.time _ => []
  | JwtVal.nullv => []

/-- Every string occurring anywhere in a returned session value: the signing
key and claims of the embedded token, the token type, and the public user
fields. -/
def sessionStrings (s : SessionOut) : List String :=
  s.access_token.key :: s.token_type :: s.user.username :: s.user.email ::
    s.user.id ::
    ((match s.user.full_name with | some f => [f] | none => []) ++
     (s.access_token.payload.map (fun p => p.1 :: jwtValStrings p.2)).flatten)

/-- The strings a successful device-flow session is built from — public user
fields, fixed claim names, the token type, and the signing secret. -/
def c8allowed (st : Settings) (s : SessionOut) : List String :=
  [st.secretKey, "bearer", "sub", "email", "exp", s.user.username,
   s.user.email, s.user.id] ++
    (match s.user.full_name with | some f => [f] | none => [])

/-- Lines 59-62 of `create_token`, factored: the expiry instant actually
written into the token. -/
def effectiveExpire (dm now : Int) (ed : Option Int) : Int :=
  match ed with
  | some d => if d != 0 then now + d else now + dm * 60
  | none => now + dm * 60

/-! ### Concrete example values used by witnesses and counterexamples -/

/-- A user whose delegated AWS credentials expired at instant 10. -/
def exUserAlice : UserR :=
  { id := "u-1", username := "alice", email := "alice@example.com",
    full_name := some "Alice", aws_identity_id := some "AID",
    aws_access_key_id := some "AK", aws_secret_access_key := some "SK",
    aws_session_token := some "ST",
    aws_token_expiry := some (PyDateTime.mk 10 none), is_active := true }

/-- A validly signed token for alice expiring at instant 100. -/
def exTokenValid : Token :=
  { payload := [("sub", JwtVal.s "alice"), ("exp", JwtVal.time 100)], key := "sec" }

/-- A validly signed token for alice whose expiry (40) is already past at 50. -/
def exTokenExpired : Token :=
  { payload := [("sub", JwtVal.s "alice"), ("exp", JwtVal.time 40)], key := "sec" }

/-- An unexpired token signed with the wrong key. -/
def exTokenBadSig : Token :=
  { payload := [("sub", JwtVal.s "alice"), ("exp", JwtVal.time 100)], key := "wrong" }

/-- A user with key id and secret set but no session token and no expiry. -/
def exUserNoSessionTok : UserR :=
  { id := "u-3", username := "bob", email := "bob@example.com",
    full_name := none, aws_identity_id := none,
    aws_access_key_id := some "AK", aws_secret_access_key := some "SK",
    aws_session_token := none, aws_token_expiry := none, is_active := true }

/-- A user whose stored expiry is timezone-aware and in the past. -/
def exUserAwareExpiry : UserR :=
  { exUserNoSessionTok with
    aws_session_token := some "ST",
    aws_token_expiry := some (PyDateTime.mk 10 (some 0)) }

/-- Settings with the default SSO account/role configured and no ambient
credentials. -/
def stDev : Settings :=
  { secretKey := "sec", accessTokenExpireMinutes := 1440,
    awsAccessKeyId := none, awsSecretAccessKey := none,
    awsSsoAccountId := "123456789012", awsSsoRoleName := "AdministratorAccess" }

/-- Role credentials returned by the provider on the first completion. -/
def exRc1 : RoleCreds :=
  { accessKeyId := some "AK1", secretAccessKey := some "SK1",
    sessionToken := some "ST1", expiration := some 3600000 }

/-- Role credentials returned by the provider on the second completion. -/
def exRc2 : RoleCreds :=
  { accessKeyId := some "AK2", secretAccessKey := some "SK2",
    sessionToken := some "ST2", expiration := some 7200000 }

/-- First device-flow completion: exchange succeeds, the account list is
unavailable (so identity fields are synthesized from the timestamp 100). -/
def exEnv1 : DeviceEnv :=
  { tokenResp := Except.ok "at1", accountsResp := Except.error "ListAccountsFailed",
    roleResp := Except.ok exRc1, ts := 100, freshId := "id-100" }

/-- Second completion for the same provider identity, at timestamp 200. -/
def exEnv2 : DeviceEnv :=
  { tokenResp := Except.ok "at2", accountsResp := Except.error "ListAccountsFailed",
    roleResp := Except.ok exRc2, ts := 200, freshId := "id-200" }

/-- The user row created by running `exEnv1` against an empty table. -/
def exUserA : UserR :=
  { id := "id-100", username := "user_100", email := "user_100@example.com",
    full_name := some "User 100", aws_identity_id := some "",
    aws_access_key_id := some "AK1", aws_secret_access_key := some "SK1",
    aws_session_token := some "ST1",
    aws_token_expiry := some (PyDateTime.mk 3600 none), is_active := true }

/-- The second user row created by running `exEnv2` after `exEnv1`. -/
def exUserB : UserR :=
  { id := "id-200", username := "user_200", email := "user_200@example.com",
    full_name := some "User 200", aws_identity_id := some "",
    aws_access_key_id := some "AK2", aws_secret_access_key := some "SK2",
    aws_session_token := some "ST2",
    aws_token_expiry := some (PyDateTime.mk 7200 none), is_active := true }

/-- The session returned by the first completion (`exEnv1` at time 0). -/
def exSess1 : SessionOut :=
  { access_token :=
      { payload := [("sub", JwtVal.s "user_100"),
                    ("email", JwtVal.s "user_100@example.com"),
                    ("exp", JwtVal.time 86400)], key := "sec" },
    token_type := "bearer",
    user := { username := "user_100", email := "user_100@example.com",
              full_name := some "User 100", id := "id-100", is_active := true } }

/-- A poll whose exchange fails with the provider's expired-device-code
error. -/
def exEnvExpired : DeviceEnv :=
  { tokenResp := Except.error "ExpiredTokenException: device code expired",
    accountsResp := Except.error "x", roleResp := Except.error "x",
    ts := 100, freshId := "id-100" }

/-- A poll whose exchange succeeds but whose role-credential retrieval
fails. -/
def exEnvRoleFail : DeviceEnv :=
  { tokenResp := Except.ok "at3", accountsResp := Except.error "x",
    roleResp := Except.error "SomethingBroke", ts := 300, freshId := "id-300" }

/-- An existing user (matching `exEnvRoleFail`'s derived username) holding a
previously stored valid credential triple. -/
def exUserOldCreds : UserR :=
  { id := "id-old", username := "user_300", email := "user_300@example.com",
    full_name := some "User 300", aws_identity_id := some "",
    aws_access_key_id := some "OLDAK", aws_secret_access_key := some "OLDSK",
    aws_session_token := some "OLDST",
    aws_token_expiry := some (PyDateTime.mk 999999 none), is_active := true }

/-- A second completion at the same timestamp 100 (same derived username as
`exEnv1`) delivering the second credential triple. -/
def exEnv1b : DeviceEnv :=
  { tokenResp := Except.ok "at4", accountsResp := Except.error "ListAccountsFailed",
    roleResp := Except.ok exRc2, ts := 100, freshId := "id-100b" }

/-- The row `exUserA` after the second completion replaced its credentials. -/
def exUserA2 : UserR :=
  { exUserA with
    aws_access_key_id := some "AK2",
    aws_secret_access_key := some "SK2",
    aws_session_token := some "ST2",
    aws_token_expiry := some (PyDateTime.mk 7200 none) }

/-- The row `exUserOldCreds` after a poll whose role-credential retrieval
failed: all four delegated-credential fields overwritten with `None`. -/
def exUserClobbered : UserR :=
  { exUserOldCreds with
    aws_access_key_id := none,
    aws_secret_access_key := none,
    aws_session_token := none,
    aws_token_expiry := none }

/-! ### Supporting lemmas -/

theorem lookup_dictSet_self (k : String) (v : JwtVal) :
    ∀ l : List (String × JwtVal), (dictSet k v l).lookup k = some v := by
  intro l
  induction l with
  | nil => simp [dictSet, List.lookup]
  | cons p rest ih =>
    obtain ⟨a, b⟩ := p
    by_cases h : a = k
    · subst h
      simp [dictSet, List.lookup]
    · have hb : (a == k) = false := by simp [h]
      have hb2 : (k == a) = false := by
        simp only [beq_eq_false_iff_ne, ne_eq]
        exact fun hh => h hh.symm
      simp [dictSet, hb, hb2, List.lookup, ih]

theorem lookup_dictSet_other (k k' : String) (v : JwtVal) (h : k' ≠ k) :
    ∀ l : List (String × JwtVal), (dictSet k v l).lookup k' = l.lookup k' := by
  intro l
  have hk : (k' == k) = false := by simp [h]
  induction l with
  | nil => simp [dictSet, List.lookup, hk]
  | cons p rest ih =>
    obtain ⟨a, b⟩ := p
    by_cases ha : a = k
    · subst ha
      simp [dictSet, List.lookup, hk]
    · have hb : (a == k) = false := by simp [ha]
      simp [dictSet, hb, List.lookup, ih]

theorem length_updateFirst (w : String) (f : UserR → UserR) :
    ∀ db : List UserR, (updateFirst db w f).length = db.length := by
  intro db
  induction db with
  | nil => rfl
  | cons u rest ih =>
    by_cases h : u.username = w
    · have hb : (u.username == w) = true := by simp [h]
      simp [updateFirst, hb]
    · have hb : (u.username == w) = false := by simp [h]
      simp [updateFirst, hb, ih]

theorem findByUsername_updateFirst (w : String)
    (c : Option String × Option String × Option String × Option PyDateTime) :
    ∀ db : List UserR,
      findByUsername (updateFirst db w (applyCreds c)) w =
        (findByUsername db w).map (applyCreds c) := by
  intro db
  induction db with
  | nil => rfl
  | cons u rest ih =>
    by_cases h : u.username = w
    · have hb : (u.username == w) = true := by simp [h]
      have hb2 : ((applyCreds c u).username == w) = true := hb
      simp [updateFirst, findByUsername, List.find?, hb, hb2]
    · have hb : (u.username == w) = false := by simp [h]
      have hprev := ih
      simp only [findByUsername] at hprev
      simp [updateFirst, findByUsername, List.find?, hb, hprev]

theorem findByUsername_append (w : String) (u : UserR) (hu : u.username = w) :
    ∀ db : List UserR, findByUsername db w = none →
      findByUsername (db ++ [u]) w = some u := by
  intro db
  induction db with
  | nil =>
    intro _
    have hb : (u.username == w) = true := by simp [hu]
    simp [findByUsername, List.find?, hb]
  | cons x rest ih =>
    intro h
    cases hx : (x.username == w) with
    | true => simp [findByUsername, List.find?, hx] at h
    | false =>
      simp only [findByUsername, List.find?, hx] at h ⊢
      exact ih h

theorem pollSuccess_db_found (st : Settings) (env : DeviceEnv) (now : Int)
    (db : List UserR)
    (c : Option String × Option String × Option String × Option PyDateTime)
    (u0 : UserR) (h : findByUsername db (deriveIdentity env).1 = some u0) :
    (pollSuccess st env now db c).2 =
      updateFirst db (deriveIdentity env).1 (applyCreds c) := by
  simp [pollSuccess, upsertDeviceUser, h]

theorem pollSuccess_find (st : Settings) (env : DeviceEnv) (now : Int)
    (db : List UserR)
    (c : Option String × Option String × Option String × Option PyDateTime) :
    ∃ u, findByUsername (pollSuccess st env now db c).2 (deriveIdentity env).1 = some u ∧
      u.aws_access_key_id = c.1 ∧ u.aws_secret_access_key = c.2.1 ∧
      u.aws_session_token = c.2.2.1 ∧ u.aws_token_expiry = c.2.2.2 ∧
      u.is_active = true := by
  cases hf : findByUsername db (deriveIdentity env).1 with
  | none =>
    refine ⟨{ id := env.freshId, username := (deriveIdentity env).1,
              email := (deriveIdentity env).2.1,
              full_name := some (deriveIdentity env).2.2,
              aws_identity_id := some "", aws_access_key_id := c.1,
              aws_secret_access_key := c.2.1, aws_session_token := c.2.2.1,
              aws_token_expiry := c.2.2.2, is_active := true },
            ?_, rfl, rfl, rfl, rfl, rfl⟩
    simp only [pollSuccess, upsertDeviceUser, hf]
    exact findByUsername_append (deriveIdentity env).1 _ rfl db hf
  | some u0 =>
    refine ⟨applyCreds c u0, ?_, rfl, rfl, rfl, rfl, rfl⟩
    rw [pollSuccess_db_found st env now db c u0 hf, findByUsername_updateFirst, hf]
    rfl

theorem create_ok_inv (st : Settings) (env : DeviceEnv) (now : Int)
    (db : List UserR) (s : SessionOut) (db' : List UserR)
    (h : create_token_from_device_code st env now db = (Except.ok s, db')) :
    ∃ c, deriveCreds st env = some c ∧ pollSuccess st env now db c = (s, db') := by
  cases ht : env.tokenResp with
  | error msg => simp [create_token_from_device_code, ht] at h
  | ok a =>
    cases hc : deriveCreds st env with
    | none => simp [create_token_from_device_code, ht, hc] at h
    | some c =>
      refine ⟨c, rfl, ?_⟩
      simp only [create_token_from_device_code, ht, hc, Prod.mk.injEq,
        Except.ok.injEq] at h
      rw [← h.1, ← h.2]

/-- The dictionary update performed by `create_token` on the device-flow claim
set, fully computed. -/
theorem dictSet_exp_pair (v a b : JwtVal) :
    dictSet "exp" v [("sub", a), ("email", b)] = [("sub", a), ("email", b), ("exp", v)] :=
  rfl

/-! ### Claim theorems -/

/-- C1.  For a token with valid signature and unexpired `exp` claim whose
subject resolves to an active user carrying a delegated-credential expiry in
the past, `get_current_user` fails with the AWS-session-expired failure
(`DelegatedCredentialsExpired`), which is a different failure value from the
generic credentials failure raised for an expired or invalid session token. -/
theorem c1_delegated_expiry_distinct (secret : String) (now : Int) (tok : Token)
    (db : List UserR) (u : UserR) (uname : String) (te : Int) (ex : PyDateTime)
    (hkey : tok.key = secret)
    (hexp : tok.payload.lookup "exp" = some (JwtVal.time te))
    (hfresh : ¬ te < now)
    (hsub : tok.payload.lookup "sub" = some (JwtVal.s uname))
    (hfind : db.find? (fun x => JwtVal.s x.username == JwtVal.s uname) = some u)
    (hact : u.is_active = true)
    (hex : u.aws_token_expiry = some ex)
    (hpast : pyGT (PyDateTime.mk now none) (normalizeExpiry ex) = Except.ok true) :
    get_current_user secret now tok db = Except.error awsExpiredException ∧
    awsExpiredException ≠ credentialsException := by
  constructor
  · have hk : (tok.key != secret) = false := by simp [hkey]
    unfold get_current_user jwtDecode
    simp [hk, hexp, hfresh, hsub, hfind, hact, hex, hpast]
  · decide

/-- Witness for C1: alice's token is valid until 100, her delegated
credentials expired at 10, and at time 50 the session validator fails with the
distinct AWS-session-expired failure. -/
theorem c1_witness :
    get_current_user "sec" 50 exTokenValid [exUserAlice] =
      Except.error awsExpiredException ∧
    awsExpiredException ≠ credentialsException :=
  c1_delegated_expiry_distinct "sec" 50 exTokenValid [exUserAlice] exUserAlice
    "alice" 100 (PyDateTime.mk 10 none) rfl rfl (by decide) rfl rfl rfl rfl rfl

/-- C2, counterexample.  An expired but validly signed token produces exactly
the same failure value as a token with an invalid signature: the code catches
`ExpiredSignatureError` under the umbrella `JWTError` and maps both to the one
generic credentials exception, so there is no `TokenExpired` failure
distinguishable from `InvalidToken`. -/
theorem c2_counterexample :
    get_current_user "sec" 50 exTokenExpired [exUserAlice] =
      get_current_user "sec" 50 exTokenBadSig [exUserAlice] ∧
    get_current_user "sec" 50 exTokenExpired [exUserAlice] =
      Except.error credentialsException :=
  ⟨rfl, rfl⟩

/-- C2, amended.  Every token whose `exp` claim is in the past is rejected —
regardless of signature validity — but with the same generic 401 credentials
failure that signature failures produce, not a distinguishable `TokenExpired`
failure. -/
theorem c2_amended (secret : String) (now : Int) (tok : Token) (db : List UserR)
    (te : Int) (hexp : tok.payload.lookup "exp" = some (JwtVal.time te))
    (hlt : te < now) :
    get_current_user secret now tok db = Except.error credentialsException := by
  unfold get_current_user jwtDecode
  cases hk : (tok.key != secret) with
  | true => simp [hk]
  | false => simp [hk, hexp, hlt]

/-- Witness for C2 (amended): a concrete expired token is rejected with the
generic credentials failure. -/
theorem c2_amended_witness :
    get_current_user "sec" 50 exTokenExpired [exUserAlice] =
      Except.error credentialsException :=
  c2_amended "sec" 50 exTokenExpired [exUserAlice] 40 rfl (by decide)

/-- C4.  `validate_aws_credentials` never propagates an exception: every
path — missing fields, naive or timezone-aware expiry, comparison failure
(mapped to `false` by the broad `except`), failing live check — returns an
ordinary boolean result.  The embedding threads no mutable state because the
source function writes none. -/
theorem c4_never_raises (now : Int) (live : Except String Unit) (u : UserR) :
    ∃ b nc, validate_aws_credentials now live u = Except.ok (b, nc) := by
  unfold validate_aws_credentials
  split
  · exact ⟨false, false, rfl⟩
  · split
    · split
      · exact ⟨false, false, rfl⟩
      · exact ⟨false, false, rfl⟩
      · split
        · exact ⟨true, true, rfl⟩
        · exact ⟨false, true, rfl⟩
    · split
      · exact ⟨true, true, rfl⟩
      · exact ⟨false, true, rfl⟩

/-- C7.  With no ambient AWS credentials configured, the direct login does
fail and does not touch the user table — but the failure surfaced is the
generic 500 internal failure, not the distinguishable 400
`CredentialsNotConfigured` failure the code itself constructs: the broad
`except Exception` inside `get_aws_identity` catches the 400 `HTTPException`
and re-raises it wrapped in a 500, which the login wrapper wraps again. -/
theorem c7_code_bug :
    login_with_aws_credentials stDev (Except.error "NoCredentialsError") 0 "id-7"
      [exUserAlice] =
    (Except.error
      { status := 500,
        detail := "Failed to login with AWS credentials: 500: Failed to get AWS identity: 400: AWS credentials not provided",
        headers := [] }, [exUserAlice]) :=
  rfl

/-- C10, counterexample.  A caller-supplied `exp` claim is not preserved:
`to_encode.update` overwrites it with the computed expiry. -/
theorem c10_counterexample :
    (create_token "sec" 1440 100 [("exp", JwtVal.time 5)] none).payload.lookup "exp" =
      some (JwtVal.time 86500) ∧ (86500 : Int) ≠ 5 :=
  ⟨rfl, by decide⟩

/-- C10, amended.  Every issued token carries an `exp` claim equal to issuance
plus the supplied (truthy, i.e. nonzero) delta, or plus the configured default
lifetime otherwise; that expiry is strictly after issuance whenever the
applicable lifetime is positive; and every caller-supplied claim other than
`exp` is preserved unchanged. -/
theorem c10_amended (secret : String) (dm now : Int) (data : List (String × JwtVal))
    (ed : Option Int) :
    ((create_token secret dm now data ed).payload.lookup "exp" =
      some (JwtVal.time (effectiveExpire dm now ed))) ∧
    (∀ k, k ≠ "exp" →
      (create_token secret dm now data ed).payload.lookup k = data.lookup k) ∧
    (∀ d, ed = some d → 0 < d → now < effectiveExpire dm now ed) ∧
    (ed = none → 0 < dm → now < effectiveExpire dm now ed) := by
  cases ed with
  | none =>
    refine ⟨?_, ?_, ?_, ?_⟩
    · simpa [create_token, effectiveExpire] using
        lookup_dictSet_self "exp" (JwtVal.time (now + dm * 60)) data
    · intro k hk
      simpa [create_token] using
        lookup_dictSet_other "exp" k (JwtVal.time (now + dm * 60)) hk data
    · intro d hd
      exact absurd hd (by simp)
    · intro _ hdm
      simp only [effectiveExpire]
      omega
  | some d =>
    by_cases hz : d = 0
    · subst hz
      refine ⟨?_, ?_, ?_, ?_⟩
      · simpa [create_token, effectiveExpire] using
          lookup_dictSet_self "exp" (JwtVal.time (now + dm * 60)) data
      · intro k hk
        simpa [create_token] using
          lookup_dictSet_other "exp" k (JwtVal.time (now + dm * 60)) hk data
      · intro d' hd' hpos
        cases hd'
        exact absurd hpos (by decide)
      · intro h
        exact absurd h (by simp)
    · have hb : (d != 0) = true := by simp [hz]
      refine ⟨?_, ?_, ?_, ?_⟩
      · simpa [create_token, effectiveExpire, hb] using
          lookup_dictSet_self "exp" (JwtVal.time (now + d)) data
      · intro k hk
        simpa [create_token, hb] using
          lookup_dictSet_other "exp" k (JwtVal.time (now + d)) hk data
      · intro d' hd' hpos
        cases hd'
        simp only [effectiveExpire, hb, if_true]
        omega
      · intro h
        exact absurd h (by simp)

/-- Witness for C10 (amended): with a positive 60-second delta, the `exp`
claim is issuance plus 60, the `sub` claim is preserved, and expiry is after
issuance. -/
theorem c10_amended_witness :
    (create_token "s" 1440 0 [("sub", JwtVal.s "a")] (some 60)).payload.lookup "exp" =
      some (JwtVal.time (effectiveExpire 1440 0 (some 60))) ∧
    (create_token "s" 1440 0 [("sub", JwtVal.s "a")] (some 60)).payload.lookup "sub" =
      some (JwtVal.s "a") ∧
    (0 : Int) < effectiveExpire 1440 0 (some 60) := by
  have h := c10_amended "s" 1440 0 [("sub", JwtVal.s "a")] (some 60)
  exact ⟨h.1, h.2.1 "sub" (by decide), h.2.2.1 60 rfl (by decide)⟩

/-- C3, counterexample.  A user with key id and secret set but NO session
token (and no expiry) passes validation when the live check succeeds: the code
only tests `aws_access_key_id` and `aws_secret_access_key`, so a missing
session token does not force `false` as the claim requires, and with no
stored expiry the function can return `true` without any "expiry in the
future" evidence. -/
theorem c3_counterexample :
    validate_aws_credentials 0 (Except.ok ()) exUserNoSessionTok =
      Except.ok (true, true) ∧
    exUserNoSessionTok.aws_session_token = none :=
  ⟨rfl, rfl⟩

/-- C3, amended.  `validate_aws_credentials` returns false (without reaching
the live network call) when the access key id or the secret access key is
missing/empty — a missing session token alone is not checked; returns false
(again without the network call) when a stored expiry, naive or
timezone-aware, is in the past after normalization; and returns true exactly
when key id and secret are present, the expiry is absent or in the future,
and the live identity lookup succeeds. -/
theorem c3_amended (now : Int) (live : Except String Unit) (u : UserR) :
    (truthyS u.aws_access_key_id = false ∨ truthyS u.aws_secret_access_key = false →
      validate_aws_credentials now live u = Except.ok (false, false)) ∧
    (∀ ex, u.aws_token_expiry = some ex →
      pyGT (PyDateTime.mk now none) (normalizeExpiry ex) = Except.ok true →
      validate_aws_credentials now live u = Except.ok (false, false)) ∧
    ((∃ nc, validate_aws_credentials now live u = Except.ok (true, nc)) ↔
      truthyS u.aws_access_key_id = true ∧ truthyS u.aws_secret_access_key = true ∧
      live = Except.ok () ∧
      (u.aws_token_expiry = none ∨
        ∃ ex, u.aws_token_expiry = some ex ∧
          pyGT (PyDateTime.mk now none) (normalizeExpiry ex) = Except.ok false)) := by
  refine ⟨?_, ?_, ?_, ?_⟩
  · rintro (h | h) <;> simp [validate_aws_credentials, h]
  · intro ex hex hgt
    cases hak : truthyS u.aws_access_key_id with
    | false => simp [validate_aws_credentials, hak]
    | true =>
      cases hsk : truthyS u.aws_secret_access_key with
      | false => simp [validate_aws_credentials, hsk]
      | true => simp [validate_aws_credentials, hak, hsk, hex, hgt]
  · rintro ⟨nc, hv⟩
    cases hak : truthyS u.aws_access_key_id with
    | false => simp [validate_aws_credentials, hak] at hv
    | true =>
      cases hsk : truthyS u.aws_secret_access_key with
      | false => simp [validate_aws_credentials, hsk] at hv
      | true =>
        cases hex : u.aws_token_expiry with
        | none =>
          cases live with
          | error e => simp [validate_aws_credentials, hak, hsk, hex] at hv
          | ok x =>
            cases x
            exact ⟨rfl, rfl, rfl, Or.inl rfl⟩
        | some ex =>
          cases hgt : pyGT (PyDateTime.mk now none) (normalizeExpiry ex) with
          | error err => simp [validate_aws_credentials, hak, hsk, hex, hgt] at hv
          | ok b =>
            cases b with
            | true => simp [validate_aws_credentials, hak, hsk, hex, hgt] at hv
            | false =>
              cases live with
              | error e =>
                simp [validate_aws_credentials, hak, hsk, hex, hgt] at hv
              | ok x =>
                cases x
                exact ⟨rfl, rfl, rfl, Or.inr ⟨ex, rfl, hgt⟩⟩
  · rintro ⟨h1, h2, h3, h4⟩
    subst h3
    rcases h4 with hnone | ⟨ex, hex, hgt⟩
    · exact ⟨true, by simp [validate_aws_credentials, h1, h2, hnone]⟩
    · exact ⟨true, by simp [validate_aws_credentials, h1, h2, hex, hgt]⟩

/-- Witness for C3 (amended): a timezone-aware expiry in the past yields
false without the live check being reached. -/
theorem c3_amended_witness :
    validate_aws_credentials 50 (Except.ok ()) exUserAwareExpiry =
      Except.ok (false, false) :=
  (c3_amended 50 (Except.ok ()) exUserAwareExpiry).2.1 (PyDateTime.mk 10 (some 0))
    rfl rfl

/-- C5, counterexample.  Two successful completions for the same provider
identity create TWO user rows: the upsert is keyed by the derived username
(here synthesized from the poll timestamp), not by the provider correlation
id — indeed `userId` is always the empty string, so both rows carry the same
correlation id while a second row is still inserted. -/
theorem c5_counterexample :
    (create_token_from_device_code stDev exEnv1 0 []).2 = [exUserA] ∧
    (create_token_from_device_code stDev exEnv2 0 [exUserA]).2 = [exUserA, exUserB] ∧
    exUserA.aws_identity_id = exUserB.aws_identity_id ∧
    exUserA.username ≠ exUserB.username ∧
    (create_token_from_device_code stDev exEnv1 0 []).1 = Except.ok exSess1 := by
  refine ⟨rfl, rfl, rfl, ?_, rfl⟩
  decide

/-- C5, amended.  Completing the device flow twice with the same DERIVED
USERNAME updates exactly one user row — the table length is unchanged by the
second completion — and the second completion's credential triple and expiry
fully replace the first's; the lookup is keyed by the derived username, not
by the provider's user/account correlation id. -/
theorem c5_amended (st : Settings) (env1 env2 : DeviceEnv) (now1 now2 : Int)
    (db db1 db2 : List UserR) (s1 s2 : SessionOut)
    (c2 : Option String × Option String × Option String × Option PyDateTime)
    (h1 : create_token_from_device_code st env1 now1 db = (Except.ok s1, db1))
    (h2 : create_token_from_device_code st env2 now2 db1 = (Except.ok s2, db2))
    (hw : (deriveIdentity env2).1 = (deriveIdentity env1).1)
    (hc : deriveCreds st env2 = some c2) :
    db2.length = db1.length ∧
    ∃ u, findByUsername db2 (deriveIdentity env2).1 = some u ∧
      u.aws_access_key_id = c2.1 ∧ u.aws_secret_access_key = c2.2.1 ∧
      u.aws_session_token = c2.2.2.1 ∧ u.aws_token_expiry = c2.2.2.2 := by
  obtain ⟨ca, hca, hpa⟩ := create_ok_inv st env1 now1 db s1 db1 h1
  obtain ⟨cb, hcb, hpb⟩ := create_ok_inv st env2 now2 db1 s2 db2 h2
  have hcb2 : cb = c2 := by
    rw [hcb] at hc
    exact Option.some.inj hc
  subst hcb2
  have hdb1 : db1 = (pollSuccess st env1 now1 db ca).2 := by rw [hpa]
  obtain ⟨u1, hu1, _⟩ := pollSuccess_find st env1 now1 db ca
  have hu1' : findByUsername db1 (deriveIdentity env2).1 = some u1 := by
    rw [hw, hdb1]
    exact hu1
  have hdb2 : db2 = updateFirst db1 (deriveIdentity env2).1 (applyCreds cb) := by
    have hb := pollSuccess_db_found st env2 now2 db1 cb u1 hu1'
    rw [hpb] at hb
    exact hb
  constructor
  · rw [hdb2, length_updateFirst]
  · refine ⟨applyCreds cb u1, ?_, rfl, rfl, rfl, rfl⟩
    rw [hdb2, findByUsername_updateFirst, hu1']
    rfl

/-- Witness for C5 (amended): a second completion at the same derived
username "user_100" leaves one row and replaces the credential triple with
the second login's values. -/
theorem c5_amended_witness :
    ([exUserA2] : List UserR).length = ([exUserA] : List UserR).length ∧
    ∃ u, findByUsername [exUserA2] (deriveIdentity exEnv1b).1 = some u ∧
      u.aws_access_key_id = some "AK2" ∧ u.aws_secret_access_key = some "SK2" ∧
      u.aws_session_token = some "ST2" ∧
      u.aws_token_expiry = some (PyDateTime.mk 7200 none) :=
  c5_amended stDev exEnv1 exEnv1b 0 0 [] [exUserA] [exUserA2] exSess1 exSess1
    (some "AK2", some "SK2", some "ST2", some (PyDateTime.mk 7200 none))
    rfl rfl rfl rfl

/-- C6, counterexample.  The poll stores nothing about past outcomes: after a
poll that returned the terminal Expired outcome, a later poll with the same
device code whose exchange now succeeds returns the AUTHORIZED (success)
outcome — the controller itself does not prevent re-authorization after a
terminal failure. -/
theorem c6_counterexample :
    create_token_from_device_code stDev exEnvExpired 0 [] =
      (Except.error { status := 400, detail := "expired_token", headers := [] }, []) ∧
    (create_token_from_device_code stDev exEnv1 0 []).1 = Except.ok exSess1 :=
  ⟨rfl, rfl⟩

/-- C6, amended.  The poll is memoryless: its outcome is a function of the
provider's response to that poll alone, and error outcomes never change the
user table.  Hence as long as the provider keeps reporting the same error for
a device code, every poll returns the same (terminal) outcome and the state
is unchanged — but nothing in the code enforces terminality if the provider
later reports success. -/
theorem c6_amended (st : Settings) (env env2 : DeviceEnv) (now now2 : Int)
    (db : List UserR) (msg : String)
    (h : env.tokenResp = Except.error msg)
    (h2 : env2.tokenResp = Except.error msg) :
    create_token_from_device_code st env now db =
      (Except.error (mapTokenError msg), db) ∧
    create_token_from_device_code st env2 now2 db =
      (Except.error (mapTokenError msg), db) := by
  constructor
  · unfold create_token_from_device_code
    rw [h]
  · unfold create_token_from_device_code
    rw [h2]

/-- Witness for C6 (amended): two polls with the provider still reporting the
expired-device-code error both return the same terminal outcome and leave the
table unchanged. -/
theorem c6_amended_witness :
    create_token_from_device_code stDev exEnvExpired 0 [] =
      (Except.error (mapTokenError "ExpiredTokenException: device code expired"), []) ∧
    create_token_from_device_code stDev exEnvExpired 5 [] =
      (Except.error (mapTokenError "ExpiredTokenException: device code expired"), []) :=
  c6_amended stDev exEnvExpired exEnvExpired 0 5 []
    "ExpiredTokenException: device code expired" rfl rfl

/-- C8.  A successful poll returns only the bearer token (claims `sub`,
`email`, `exp`) and the public user view: every string in the returned
session is the signing secret, the token type, a claim name, or a public user
field.  Consequently none of the three delegated-credential values returned
by the provider appears anywhere in the session, as long as it is not
literally equal to one of those public strings. -/
theorem c8_no_credentials_in_session (st : Settings) (env : DeviceEnv) (now : Int)
    (db db' : List UserR) (s : SessionOut) (rc : RoleCreds)
    (hrun : create_token_from_device_code st env now db = (Except.ok s, db'))
    (_hrc : env.roleResp = Except.ok rc) (v : String)
    (hv : rc.accessKeyId = some v ∨ rc.secretAccessKey = some v ∨
          rc.sessionToken = some v)
    (hall : v ∉ c8allowed st s) :
    v ∉ sessionStrings s := by
  obtain ⟨c, hc, hp⟩ := create_ok_inv st env now db s db' hrun
  have hs : s = (pollSuccess st env now db c).1 := by rw [hp]
  intro hmem
  apply hall
  rw [hs] at hmem ⊢
  simp only [pollSuccess, sessionStrings, c8allowed, create_token,
    dictSet_exp_pair, jwtValStrings, List.map_cons, List.map_nil,
    List.flatten_cons, List.flatten_nil, List.mem_cons, List.mem_append,
    List.mem_singleton, List.append_nil, List.not_mem_nil] at hmem ⊢
  tauto

/-- Witness for C8: the provider access key "AK1" does not occur anywhere in
the session returned by the successful first completion. -/
theorem c8_witness : "AK1" ∉ sessionStrings exSess1 :=
  c8_no_credentials_in_session stDev exEnv1 0 [] [exUserA] exSess1 exRc1 rfl rfl
    "AK1" (Or.inl rfl) (by decide)

/-- C9.  When the exchange succeeds but role-credential retrieval fails (with
the SSO account/role configured), the poll still completes successfully and
writes `None` into all four delegated-credential fields of the matched user —
for an existing user this clobbers the previously stored triple. -/
theorem c9_clobber (st : Settings) (env : DeviceEnv) (now : Int) (db : List UserR)
    (u0 : UserR) (a e : String)
    (htok : env.tokenResp = Except.ok a)
    (hacct : st.awsSsoAccountId ≠ "")
    (hrole : st.awsSsoRoleName ≠ "")
    (hfail : env.roleResp = Except.error e)
    (hfind : findByUsername db (deriveIdentity env).1 = some u0) :
    ∃ s, create_token_from_device_code st env now db =
      (Except.ok s,
       updateFirst db (deriveIdentity env).1 (applyCreds (none, none, none, none))) ∧
      findByUsername
        (updateFirst db (deriveIdentity env).1 (applyCreds (none, none, none, none)))
        (deriveIdentity env).1 =
        some { u0 with
               aws_access_key_id := none, aws_secret_access_key := none,
               aws_session_token := none, aws_token_expiry := none,
               is_active := true } := by
  have hc : deriveCreds st env = some (none, none, none, none) := by
    have hg1 : (st.awsSsoAccountId != "") = true := by simp [hacct]
    have hg2 : (st.awsSsoRoleName != "") = true := by simp [hrole]
    simp [deriveCreds, hg1, hg2, hfail]
  refine ⟨(pollSuccess st env now db (none, none, none, none)).1, ?_, ?_⟩
  · simp only [create_token_from_device_code, htok, hc]
    rw [pollSuccess_db_found st env now db _ u0 hfind]
  · rw [findByUsername_updateFirst, hfind]
    rfl

/-- Witness for C9: an existing user holding a valid stored triple has all
four delegated-credential fields overwritten with `None` by a poll whose
role-credential retrieval failed, while the poll itself succeeds. -/
theorem c9_witness :
    ∃ s, create_token_from_device_code stDev exEnvRoleFail 0 [exUserOldCreds] =
      (Except.ok s,
       updateFirst [exUserOldCreds] (deriveIdentity exEnvRoleFail).1
         (applyCreds (none, none, none, none))) ∧
      findByUsername
        (updateFirst [exUserOldCreds] (deriveIdentity exEnvRoleFail).1
          (applyCreds (none, none, none, none)))
        (deriveIdentity exEnvRoleFail).1 =
        some { exUserOldCreds with
               aws_access_key_id := none, aws_secret_access_key := none,
               aws_session_token := none, aws_token_expiry := none,
               is_active := true } :=
  c9_clobber stDev exEnvRoleFail 0 [exUserOldCreds] exUserOldCreds "at3"
    "SomethingBroke" rfl (by decide) (by decide) rfl rfl

end LangChef
